import Mathlib

/-!
Verification of the connection protocol engine of `node-jsonrpc-tcp`
(files `lib/connection.js`, `lib/remote.js`, `lib/server.js`).

The development shallowly embeds the parts of the code the claims are
about:

* the parser callback of `Connection` that classifies each decoded
  inbound JSON object as a response, a request or a notification
  (`classify`, from `lib/connection.js`);
* `Connection.prototype._handleRequest` and its inner `result`
  continuation (`Conn.handleRequest`, `resultCont`);
* `Remote` — id allocation, the pending-handler table, the `response`
  listener and the per-call `onTimeout` closure (`Remote.call`,
  `Remote.onResponse`, `Remote.onTimeout`, from `lib/remote.js`);
* `Connection.prototype.call`, `Connection.prototype._createCall` and
  the queue flush performed by `onRPCClientConnect`
  (`Conn.call`, `Conn.createCall`, `Conn.flushJobs`, `Conn.onConnect`).

JavaScript values that can appear in decoded JSON messages are modelled
by `JVal`; a key that may be absent from an object is modelled by an
`Option` field (`none` = key absent, i.e. reading it yields `undefined`).
-/

namespace JsonRpcTcp

/-- JSON values as decoded by the `jsonsp` parser (scalar fragment —
enough for the ids, method names, result values and error strings the
engine inspects).  Decoded JSON never contains `undefined`, so absence
of a key is modelled one level up by `Option JVal`. -/
inductive JVal : Type where
  | null : JVal
  | bool (b : Bool) : JVal
  | num (n : Int) : JVal
  | str (s : String) : JVal
  deriving DecidableEq, Repr

/-- Whether a `JVal` is a string, mirroring `typeof v === 'string'`. -/
def JVal.isStr : JVal → Bool
  | JVal.str _ => true
  | _ => false

/-- Truthiness of a `JVal` under JavaScript coercion (`if (v)`). -/
def JVal.truthy : JVal → Bool
  | JVal.null => false
  | JVal.bool b => b
  | JVal.num n => decide (n ≠ 0)
  | JVal.str s => decide (s ≠ "")

/-- A decoded inbound JSON object, restricted to the keys the connection
engine inspects.  `none` in `id`, `result`, `error` means the key was
absent from the decoded object (so reading it gives `undefined`);
`some v` means the key was present with value `v`. -/
structure InObj : Type where
  id : Option JVal
  result : Option JVal
  error : Option JVal
  method : String
  params : List JVal
  deriving DecidableEq, Repr

/-- Classification of a decoded inbound object. -/
inductive MsgClass : Type where
  | response : MsgClass
  | request : MsgClass
  | notif : MsgClass
  deriving DecidableEq, Repr

/-- Classification performed by the parser callback in the `Connection`
constructor (`lib/connection.js`):

    if (obj.result !== undefined || obj.error !== undefined) -> response
    else if (obj.id !== null)                                -> request
    else                                                     -> notification

With decoded JSON, `obj.result !== undefined` is key presence; and
`obj.id !== null` is true when the key is absent (`undefined !== null`
in JavaScript) as well as when it holds any value other than `null`. -/
def classify (o : InObj) : MsgClass :=
  if o.result.isSome || o.error.isSome then MsgClass.response
  else if o.id ≠ some JVal.null then MsgClass.request
  else MsgClass.notif

/-- A JavaScript `Error` as far as the engine reads it: its `message`. -/
structure JsError : Type where
  message : String
  deriving DecidableEq, Repr

/-- An outbound response object, as built by the `result` continuation
inside `Connection.prototype._handleRequest`.  `id` is copied from the
inbound object, so it is again an optional value. -/
structure RespOut : Type where
  id : Option JVal
  result : JVal
  error : JVal
  deriving DecidableEq, Repr

/-- Exactly one of `result`/`error` of an outbound response is non-null. -/
def RespOut.exactlyOne (r : RespOut) : Prop :=
  (r.result ≠ JVal.null ∧ r.error = JVal.null) ∨
  (r.result = JVal.null ∧ r.error ≠ JVal.null)

instance (r : RespOut) : Decidable r.exactlyOne := by
  unfold RespOut.exactlyOne; infer_instance

/-- The `result` continuation of `Connection.prototype._handleRequest`
(`lib/connection.js`):

    function result(err, res) {
      if (req.id !== null) {
        if (err) { return self.send({ id: req.id, result: null, error: err.message }); }
        self.send({ id: req.id, result: res, error: null });
      }
    }

The return value is the list of wire writes it performs (empty or a
single response).  `reqId` is the inbound object's `id` field; the guard
`req.id !== null` is false only when the key is present and null. -/
def resultCont (reqId : Option JVal) (err : Option JsError) (res : JVal) :
    List RespOut :=
  if reqId ≠ some JVal.null then
    match err with
    | some e => [{ id := reqId, result := JVal.null, error := JVal.str e.message }]
    | none => [{ id := reqId, result := res, error := JVal.null }]
  else []

/-- Behaviour of a registered handler when invoked: it calls the
appended `result` continuation once with a success value, once with an
error, throws synchronously, or returns without calling it.  This
abstracts the body of the JavaScript function stored in `_methods`. -/
inductive HandlerBehavior : Type where
  | callOk (res : JVal) : HandlerBehavior
  | callErr (msg : String) : HandlerBehavior
  | throws (msg : String) : HandlerBehavior
  | silent : HandlerBehavior
  deriving DecidableEq, Repr

/-- Lookup of an OWN property of the method registry `this._methods`,
i.e. an entry actually registered through `expose` (first binding wins;
the registry is keyed uniquely, as a JavaScript object is). -/
def lookupMethod (ms : List (String × HandlerBehavior)) (name : String) :
    Option HandlerBehavior :=
  match ms with
  | [] => none
  | (n, h) :: rest => if n = name then some h else lookupMethod rest name

/-- Function-valued properties that the plain object `this._methods = {}`
inherits from `Object.prototype` and whose invocation by the dispatcher
(`fn.apply(this, params ++ [result])`) ignores the appended continuation
and returns normally — so invoking them produces no wire write.  These
names pass the `typeof method === 'function'` test even though nothing
was registered under them. -/
def protoSilent : List String :=
  ["constructor", "toString", "toLocaleString", "valueOf", "hasOwnProperty",
   "isPrototypeOf", "propertyIsEnumerable", "__lookupGetter__", "__lookupSetter__"]

/-- The two remaining function-valued properties inherited from
`Object.prototype`: the accessor definers.  Invoked by the dispatcher,
their getter/setter argument is `args[1]`; with exactly one request
parameter that argument is the appended continuation (callable, so the
accessor is installed and the call returns without invoking it), while
with any other arity it is `undefined` or a decoded JSON value, which is
not callable, so ECMA-262 mandates a `TypeError` — caught by the
dispatcher and routed into `result(err)`. -/
def protoDefiners : List String := ["__defineGetter__", "__defineSetter__"]

/-- Message of the `TypeError` thrown by `__defineGetter__` /
`__defineSetter__` on a non-callable argument.  The throw itself is
mandated by ECMA-262; the message text is engine-defined, so the model
fixes it as an arbitrary constant that no theorem depends on. -/
def definerTypeErrMsg : String := "Getter must be a function"

/-- Embedding of the property read `var method = self._methods[req.method]`
together with the `typeof method === 'function'` test: a registered
entry (own property) shadows the prototype chain; otherwise the
function-valued properties inherited from `Object.prototype` still
yield a function — the silent built-ins behave as a handler that never
calls the continuation, and the accessor definers behave per their
arity (see `protoDefiners`).  Every other name reads `undefined`, as
does the inherited non-function `__proto__`. -/
def methodsGet (ms : List (String × HandlerBehavior)) (name : String)
    (params : List JVal) : Option HandlerBehavior :=
  match lookupMethod ms name with
  | some hb => some hb
  | none =>
      if name ∈ protoSilent then some HandlerBehavior.silent
      else if name ∈ protoDefiners then
        some (if params.length = 1 then HandlerBehavior.silent
              else HandlerBehavior.throws definerTypeErrMsg)
      else none

/-- Wire writes produced by invoking a handler inside
`_handleRequest`'s `try { method.apply(...) } catch (err) { result(err) }`:
a success call reaches `result(null, res)`, an error call reaches
`result(err)`, a synchronous throw is caught and routed to
`result(err)`, and a handler that never calls the continuation writes
nothing. -/
def runHandler (hb : HandlerBehavior) (reqId : Option JVal) : List RespOut :=
  match hb with
  | HandlerBehavior.callOk res => resultCont reqId none res
  | HandlerBehavior.callErr msg => resultCont reqId (some { message := msg }) JVal.null
  | HandlerBehavior.throws msg => resultCont reqId (some { message := msg }) JVal.null
  | HandlerBehavior.silent => []

/-- Result of dispatching one inbound object: the wire writes performed
and whether the method read resolved to a function that was invoked
(a registered handler, or a built-in inherited from
`Object.prototype`). -/
structure DispatchResult : Type where
  sent : List RespOut
  invoked : Bool
  deriving DecidableEq, Repr

namespace Conn

/-- Embedding of `Connection.prototype._handleRequest`
(`lib/connection.js`): read `_methods[req.method]` (own entry or
inherited function, see `methodsGet`); if the read yields a function,
invoke it with the `result` continuation appended; otherwise call
`result(new Error('Method Not Found'))`. -/
def handleRequest (ms : List (String × HandlerBehavior)) (o : InObj) :
    DispatchResult :=
  match methodsGet ms o.method o.params with
  | some hb => { sent := runHandler hb o.id, invoked := true }
  | none =>
      { sent := resultCont o.id (some { message := "Method Not Found" }) JVal.null
        invoked := false }

/-- Embedding of the parser callback's routing: a decoded object
classified as a response is only forwarded to the `response` listeners
(no dispatch, no wire write from this path), while a request or a
notification is passed to `_handleRequest`. -/
def onObject (ms : List (String × HandlerBehavior)) (o : InObj) :
    DispatchResult :=
  match classify o with
  | MsgClass.response => { sent := [], invoked := false }
  | MsgClass.request => handleRequest ms o
  | MsgClass.notif => handleRequest ms o

end Conn

/-- Argument tuple of one RPC call as handled by
`Connection.prototype.call` / `_createCall` / `Remote.prototype.call`:
the method value (JavaScript lets any value through until `_createCall`
checks it), the parameter list, and whether a callback function was
supplied as the final argument.  This is what `_queue` stores and what
the `onTimeout` closure re-enqueues. -/
structure CallArgs : Type where
  method : JVal
  params : List JVal
  cb : Bool
  deriving DecidableEq, Repr

/-- An outbound request object as built by `Remote.prototype.call`:
`{ id: this._requestID++, method: method, params: params }`. -/
structure Request : Type where
  id : Nat
  method : JVal
  params : List JVal
  deriving DecidableEq, Repr

/-- A pending-call record stored in `Remote`'s `_handlers` table:
`{ req: req, callback: callback }` plus the `args` tuple captured by
the `onTimeout` closure (`var args = arguments`).  The callback's
presence is `args.cb`. -/
structure PendingCall : Type where
  req : Request
  args : CallArgs
  deriving DecidableEq, Repr

/-- Read of `_handlers[k]` on the association-list model of the
JavaScript object used as the pending table. -/
def alGet (l : List (Nat × PendingCall)) (k : Nat) : Option PendingCall :=
  match l with
  | [] => none
  | p :: rest => if p.1 = k then some p.2 else alGet rest k

/-- Write `_handlers[k] = v`: replace the binding if the key exists,
otherwise add it. -/
def alSet (l : List (Nat × PendingCall)) (k : Nat) (v : PendingCall) :
    List (Nat × PendingCall) :=
  if (alGet l k).isSome then
    l.map (fun p => if p.1 = k then (k, v) else p)
  else l ++ [(k, v)]

/-- Delete `delete _handlers[k]` (a no-op when the key is absent). -/
def alErase (l : List (Nat × PendingCall)) (k : Nat) :
    List (Nat × PendingCall) :=
  l.filter (fun p => p.1 ≠ k)

/-- State of a `Remote` (`lib/remote.js`): the next request id
(`_requestID`) and the pending table (`_handlers`). -/
structure Remote : Type where
  requestID : Nat
  handlers : List (Nat × PendingCall)
  deriving DecidableEq, Repr

/-- A freshly constructed `Remote`: `this._requestID = 1`,
`this._handlers = {}` — built anew by `onRPCClientConnect` on every
transition into the connected state. -/
def Remote.init : Remote := { requestID := 1, handlers := [] }

/-- Embedding of `Remote.prototype.call`: build
`req = { id: this._requestID++, method, params }`, record the pending
call under `req.id`, arm its timeout timer, and send `req` over the
connection.  Returns the new state and the request written to the
wire. -/
def Remote.call (r : Remote) (a : CallArgs) : Remote × Request :=
  let req : Request := { id := r.requestID, method := a.method, params := a.params }
  let pc : PendingCall := { req := req, args := a }
  ({ requestID := r.requestID + 1, handlers := alSet r.handlers req.id pc }, req)

/-- An inbound response message as seen by the `response` listener
installed in the `Remote` constructor.  `id` is `none` when the wire
object's `id` was null or absent (the listener returns early in that
case); per the wire format ids are integers. -/
structure RespMsg : Type where
  id : Option Nat
  result : JVal
  error : JVal
  deriving DecidableEq, Repr

/-- Data of the error value handed to a pending call's callback: the
wire `error` value the `Error` was built from, and the `method` and
`params` of the original request that the listener attaches to it. -/
structure ErrInfo : Type where
  errVal : JVal
  method : JVal
  params : List JVal
  deriving DecidableEq, Repr

/-- One invocation of a pending call's callback. -/
structure CbCall : Type where
  id : Nat
  error : Option ErrInfo
  result : JVal
  deriving DecidableEq, Repr

/-- Embedding of the `response` listener installed by the `Remote`
constructor:

    if (res.id === null || res.id === undefined) { return; }
    var handler = self._handlers[res.id];
    if (handler) {
      clearTimeout(handler.tid);
      if (res.error) { res.error = new Error(res.error); ... }
      handler.callback.call(self, res.error, res.result);
    }
    delete self._handlers[res.id];

Returns the new state and the callback invocations performed (when the
pending record was created without a callback the invocation is
suppressed; through `Connection._createCall` a wrapper callback is
always installed). -/
def Remote.onResponse (r : Remote) (res : RespMsg) : Remote × List CbCall :=
  match res.id with
  | none => (r, [])
  | some i =>
      match alGet r.handlers i with
      | some pc =>
          let e : Option ErrInfo :=
            if res.error.truthy then
              some { errVal := res.error, method := pc.req.method, params := pc.req.params }
            else none
          ({ r with handlers := alErase r.handlers i },
           if pc.args.cb then [{ id := i, error := e, result := res.result }] else [])
      | none => ({ r with handlers := alErase r.handlers i }, [])

/-- Embedding of the per-call `onTimeout` closure armed by
`Remote.prototype.call`:

    if (self._connection.connected) {
      self._connection.emit('timeout', method, params);
    } else {
      self._connection._queue.push(args);
      delete self._handlers[req.id];
    }

The closure captures `method`, `params`, `args` and `req.id` from the
original call, so it takes the pending record's data, the connected
flag, and the connection's deferred queue; it returns the new remote
state, the new queue, and the `timeout` events emitted. -/
def Remote.onTimeout (r : Remote) (connected : Bool) (queue : List CallArgs)
    (pc : PendingCall) : Remote × List CallArgs × List (JVal × List JVal) :=
  if connected then
    (r, queue, [(pc.req.method, pc.req.params)])
  else
    ({ r with handlers := alErase r.handlers pc.req.id }, queue ++ [pc.args], [])

/-- A local fault raised by `Connection.prototype._createCall`:
`typeErr` is the `TypeError('method must be a string, ...')` thrown on
a non-string method; `nullRemote` marks the fault of invoking
`this._remote.call` while `_remote` is null (unreachable through
`call`, which only reaches `_createCall` while connected). -/
inductive CallFault : Type where
  | typeErr : CallFault
  | nullRemote : CallFault
  deriving DecidableEq, Repr

/-- State of a `Connection` as far as the outbound call path is
concerned: the `connected` flag, the deferred-call queue `_queue`, the
current `_remote` (null until connected), and the requests written to
the socket so far. -/
structure Conn : Type where
  connected : Bool
  queue : List CallArgs
  remote : Option Remote
  wire : List Request
  deriving DecidableEq, Repr

/-- A freshly constructed `Connection`: `connected` unset (falsy),
`_queue = []`, `_remote = null`, nothing written yet. -/
def Conn.init : Conn :=
  { connected := false, queue := [], remote := none, wire := [] }

/-- Embedding of `Connection.prototype._createCall`: throw a
`TypeError` unless the method is a string; otherwise wrap (or install)
the final callback via `_createWrapper` — so the argument tuple that
reaches `Remote.call` always carries a callback — and delegate to
`this._remote.call`, which sends the request. -/
def Conn.createCall (c : Conn) (a : CallArgs) : Except CallFault Conn :=
  if a.method.isStr then
    match c.remote with
    | some r =>
        let p := Remote.call r { a with cb := true }
        Except.ok { c with remote := some p.1, wire := c.wire ++ [p.2] }
    | none => Except.error CallFault.nullRemote
  else Except.error CallFault.typeErr

/-- Embedding of `Connection.prototype.call`: when connected, forward
the argument tuple to `_createCall`; otherwise push it onto `_queue`
(with no validation). -/
def Conn.call (c : Conn) (a : CallArgs) : Except CallFault Conn :=
  if c.connected then Conn.createCall c a
  else Except.ok { c with queue := c.queue ++ [a] }

/-- The `self._queue.forEach(function(job) { self._createCall... })`
loop of `onRPCClientConnect`: issue the jobs in order; an exception
thrown by `_createCall` aborts the iteration and propagates (leaving
the state reached so far). -/
def Conn.flushJobs (c : Conn) : List CallArgs → Conn × Option CallFault
  | [] => (c, none)
  | a :: rest =>
      match Conn.createCall c a with
      | Except.ok c2 => Conn.flushJobs c2 rest
      | Except.error e => (c, some e)

/-- Embedding of `onRPCClientConnect` (`Connection.prototype.connect`):
install a fresh `Remote`, set `connected`, flush the deferred queue in
order through `_createCall`, then clear the queue.  If the flush throws
(non-string method in a queued job), `self._queue = []` is never
reached, so the queue keeps its old contents; the exception propagates
out of the event handler. -/
def Conn.onConnect (c : Conn) : Conn × Option CallFault :=
  let c1 : Conn := { c with connected := true, remote := some Remote.init }
  let p := Conn.flushJobs c1 c1.queue
  match p.2 with
  | none => ({ p.1 with queue := [] }, none)
  | some e => (p.1, some e)

/-- Requests produced by issuing the given argument tuples with ids
allocated consecutively from `n` — the shape of a successful queue
flush. -/
def reqsFrom (n : Nat) : List CallArgs → List Request
  | [] => []
  | a :: rest =>
      { id := n, method := a.method, params := a.params } :: reqsFrom (n + 1) rest

/-- Final remote state after issuing the given argument tuples through
`_createCall` (each with its wrapper callback installed). -/
def Remote.callAll (r : Remote) : List CallArgs → Remote
  | [] => r
  | a :: rest => Remote.callAll (Remote.call r { a with cb := true }).1 rest

/-- Events a `Remote` undergoes during one connected session: a call
issued through `_createCall`, an inbound response, or a pending call's
timer firing (with the connection's `connected` flag at that moment). -/
inductive REvent : Type where
  | call (a : CallArgs) : REvent
  | resp (res : RespMsg) : REvent
  | timer (connected : Bool) (pc : PendingCall) : REvent
  deriving Repr

/-- Run a session trace against a remote, collecting the requests
actually written to the wire. -/
def Remote.runTrace (r : Remote) : List REvent → Remote × List Request
  | [] => (r, [])
  | REvent.call a :: es =>
      let p := Remote.call r a
      let q := Remote.runTrace p.1 es
      (q.1, p.2 :: q.2)
  | REvent.resp res :: es => Remote.runTrace (Remote.onResponse r res).1 es
  | REvent.timer b pc :: es => Remote.runTrace (Remote.onTimeout r b [] pc).1 es

/-- Number of call events in a session trace. -/
def countCalls : List REvent → Nat
  | [] => 0
  | REvent.call _ :: es => countCalls es + 1
  | _ :: es => countCalls es

/-- Every pending id is below the allocator — the invariant tying
`_requestID` to `_handlers`. -/
def Remote.inv (r : Remote) : Prop := ∀ p ∈ r.handlers, p.1 < r.requestID

lemma alGet_eq_none_iff (l : List (Nat × PendingCall)) (k : Nat) :
    alGet l k = none ↔ ∀ p ∈ l, p.1 ≠ k := by
  induction l with
  | nil => simp [alGet]
  | cons p rest ih =>
      by_cases h : p.1 = k <;> simp [alGet, h, ih]

lemma alErase_of_none (l : List (Nat × PendingCall)) (k : Nat)
    (h : alGet l k = none) : alErase l k = l := by
  rw [alGet_eq_none_iff] at h
  unfold alErase
  rw [List.filter_eq_self]
  intro p hp
  simpa using h p hp

lemma alGet_alErase (l : List (Nat × PendingCall)) (k : Nat) :
    alGet (alErase l k) k = none := by
  rw [alGet_eq_none_iff]
  intro p hp
  have := List.of_mem_filter hp
  simpa using this

lemma mem_alErase (l : List (Nat × PendingCall)) (k : Nat) (p : Nat × PendingCall)
    (h : p ∈ alErase l k) : p ∈ l :=
  List.mem_of_mem_filter h

lemma mem_alSet (l : List (Nat × PendingCall)) (k : Nat) (v : PendingCall)
    (p : Nat × PendingCall) (h : p ∈ alSet l k v) : p ∈ l ∨ p = (k, v) := by
  unfold alSet at h
  by_cases hs : (alGet l k).isSome
  · rw [if_pos hs] at h
    obtain ⟨q, hq, hfq⟩ := List.mem_map.mp h
    by_cases hk : q.1 = k
    · right; rw [if_pos hk] at hfq; exact hfq.symm
    · left; rw [if_neg hk] at hfq; exact hfq ▸ hq
  · rw [if_neg hs] at h
    rcases List.mem_append.mp h with h1 | h1
    · exact Or.inl h1
    · exact Or.inr (List.mem_singleton.mp h1)

lemma Remote.call_fst_requestID (r : Remote) (a : CallArgs) :
    (Remote.call r a).1.requestID = r.requestID + 1 := rfl

lemma Remote.onResponse_fst (r : Remote) (res : RespMsg) :
    (Remote.onResponse r res).1 =
      match res.id with
      | none => r
      | some i => { r with handlers := alErase r.handlers i } := by
  unfold Remote.onResponse
  cases res.id with
  | none => rfl
  | some i => cases h : alGet r.handlers i <;> simp [h]

lemma Remote.onResponse_fst_requestID (r : Remote) (res : RespMsg) :
    (Remote.onResponse r res).1.requestID = r.requestID := by
  rw [Remote.onResponse_fst]
  cases res.id <;> rfl

lemma Remote.onTimeout_fst_requestID (r : Remote) (b : Bool) (q : List CallArgs)
    (pc : PendingCall) : (Remote.onTimeout r b q pc).1.requestID = r.requestID := by
  unfold Remote.onTimeout
  cases b <;> rfl

lemma Remote.inv_call (r : Remote) (a : CallArgs) (h : r.inv) :
    (Remote.call r a).1.inv := by
  intro p hp
  simp only [Remote.call] at hp ⊢
  rcases mem_alSet _ _ _ _ hp with h1 | h1
  · exact Nat.lt_succ_of_lt (h p h1)
  · rw [h1]; exact Nat.lt_succ_self _

lemma Remote.inv_erase (r : Remote) (k : Nat) (h : r.inv) :
    Remote.inv { r with handlers := alErase r.handlers k } := by
  intro p hp
  exact h p (mem_alErase _ _ _ hp)

lemma Remote.inv_onResponse (r : Remote) (res : RespMsg) (h : r.inv) :
    (Remote.onResponse r res).1.inv := by
  rw [Remote.onResponse_fst]
  cases res.id with
  | none => exact h
  | some i => exact Remote.inv_erase r i h

lemma Remote.inv_onTimeout (r : Remote) (b : Bool) (q : List CallArgs)
    (pc : PendingCall) (h : r.inv) : (Remote.onTimeout r b q pc).1.inv := by
  unfold Remote.onTimeout
  cases b with
  | false => exact Remote.inv_erase r pc.req.id h
  | true => exact h

lemma Remote.inv_runTrace (es : List REvent) :
    ∀ r : Remote, r.inv → (Remote.runTrace r es).1.inv := by
  induction es with
  | nil => intro r h; exact h
  | cons e rest ih =>
      intro r h
      cases e with
      | call a => exact ih _ (Remote.inv_call r a h)
      | resp res => exact ih _ (Remote.inv_onResponse r res h)
      | timer b pc => exact ih _ (Remote.inv_onTimeout r b [] pc h)

lemma Remote.alGet_requestID_of_inv (r : Remote) (h : r.inv) :
    alGet r.handlers r.requestID = none := by
  rw [alGet_eq_none_iff]
  intro p hp
  exact Nat.ne_of_lt (h p hp)

lemma Remote.runTrace_ids (es : List REvent) :
    ∀ r : Remote,
      (Remote.runTrace r es).2.map Request.id = List.range' r.requestID (countCalls es) := by
  induction es with
  | nil => intro r; rfl
  | cons e rest ih =>
      intro r
      cases e with
      | call a =>
          have h2 := ih (Remote.call r a).1
          rw [Remote.call_fst_requestID] at h2
          simp only [Remote.runTrace, List.map_cons, countCalls, List.range'_succ, h2]
          rfl
      | resp res =>
          have h2 := ih (Remote.onResponse r res).1
          rw [Remote.onResponse_fst_requestID] at h2
          simpa [Remote.runTrace, countCalls] using h2
      | timer b pc =>
          have h2 := ih (Remote.onTimeout r b [] pc).1
          rw [Remote.onTimeout_fst_requestID] at h2
          simpa [Remote.runTrace, countCalls] using h2

lemma Conn.createCall_ok (c : Conn) (a : CallArgs) (r : Remote)
    (hr : c.remote = some r) (hs : a.method.isStr = true) :
    Conn.createCall c a =
      Except.ok
        { c with
          remote := some (Remote.call r { a with cb := true }).1
          wire := c.wire ++ [(Remote.call r { a with cb := true }).2] } := by
  unfold Conn.createCall
  rw [hr, if_pos hs]

lemma Conn.flushJobs_ok (jobs : List CallArgs) :
    ∀ (c : Conn) (r : Remote), c.remote = some r →
      (∀ a ∈ jobs, a.method.isStr = true) →
      Conn.flushJobs c jobs =
        ({ connected := c.connected, queue := c.queue,
           remote := some (Remote.callAll r jobs),
           wire := c.wire ++ reqsFrom r.requestID jobs }, none) := by
  induction jobs with
  | nil =>
      intro c r hr _
      obtain ⟨cc, cq, cr, cw⟩ := c
      simp only at hr
      simp [Conn.flushJobs, Remote.callAll, reqsFrom, hr]
  | cons a rest ih =>
      intro c r hr hall
      have hs : a.method.isStr = true := hall a (List.mem_cons_self a rest)
      have hcc := Conn.createCall_ok c a r hr hs
      have hrest : ∀ b ∈ rest, b.method.isStr = true :=
        fun b hb => hall b (List.mem_cons_of_mem a hb)
      have hih :=
        ih { c with
              remote := some (Remote.call r { a with cb := true }).1
              wire := c.wire ++ [(Remote.call r { a with cb := true }).2] }
          (Remote.call r { a with cb := true }).1 rfl hrest
      simp only [Conn.flushJobs, hcc]
      rw [hih]
      simp only [Remote.call_fst_requestID, Remote.callAll, reqsFrom]
      simp [Remote.call, List.append_assoc]

lemma Conn.flushJobs_append (xs ys : List CallArgs) :
    ∀ (c c' : Conn), Conn.flushJobs c xs = (c', none) →
      Conn.flushJobs c (xs ++ ys) = Conn.flushJobs c' ys := by
  induction xs with
  | nil =>
      intro c c' h
      simp only [Conn.flushJobs] at h
      rw [List.nil_append, (Prod.mk.injEq _ _ _ _).mp h |>.1]
  | cons a rest ih =>
      intro c c' h
      simp only [Conn.flushJobs, List.cons_append] at h ⊢
      cases hcc : Conn.createCall c a with
      | ok c2 =>
          rw [hcc] at h
          exact ih c2 c' h
      | error e =>
          rw [hcc] at h
          exact absurd (Prod.mk.injEq _ _ _ _ |>.mp h).2 (by simp)

/-- C1 fails on the code: a decoded object carrying neither a `result`
nor an `error` key and whose `id` key is absent altogether is
classified as a Request, not a Notification — in JavaScript
`undefined !== null`, so the parser callback's `obj.id !== null` test
holds for an absent id. -/
theorem c1_absent_id_classified_request :
    classify { id := none, result := none, error := none, method := "m", params := [] } =
      MsgClass.request ∧
    MsgClass.request ≠ MsgClass.notif := by
  decide

/-- C1 (amended): for decoded objects with neither a `result` nor an
`error` key, classification yields Notification exactly when the `id`
key is present with the literal value null; when `id` is absent the
object is classified as a Request.  So the Request class is "id not
literally null" (absent included), not "id present and non-null". -/
theorem c1_classification_of_id_free_objects (o : InObj)
    (hr : o.result = none) (he : o.error = none) :
    (classify o = MsgClass.notif ↔ o.id = some JVal.null) ∧
    (o.id = none → classify o = MsgClass.request) := by
  constructor
  · by_cases h : o.id = some JVal.null <;> simp [classify, hr, he, h]
  · intro h; simp [classify, hr, he, h]

/-- C1 witness: an object with `id` present and null, no `result`, no
`error`, is classified as a Notification. -/
theorem c1_classification_witness :
    ({ id := some JVal.null, result := none, error := none,
       method := "m", params := [] } : InObj).result = none ∧
    classify { id := some JVal.null, result := none, error := none,
               method := "m", params := [] } = MsgClass.notif :=
  ⟨rfl,
   (c1_classification_of_id_free_objects
      { id := some JVal.null, result := none, error := none,
        method := "m", params := [] } rfl rfl).1.mpr rfl⟩

/-- C2 fails on the code: a handler that succeeds with the value null
makes the `result` continuation send `{id, result: null, error: null}`
— both fields null, so "exactly one of result/error is non-null" does
not hold for every value the handler passes. -/
theorem c2_null_success_value_both_null :
    resultCont (some (JVal.num 1)) none JVal.null =
      [{ id := some (JVal.num 1), result := JVal.null, error := JVal.null }] ∧
    ¬ RespOut.exactlyOne
        { id := some (JVal.num 1), result := JVal.null, error := JVal.null } := by
  decide

/-- C2 (amended): for every request id, a handler error makes the
continuation send `{id, result: null, error: message}` (error non-null,
so exactly one of result/error is non-null), and handler success makes
it send `{id, result: value, error: null}`; on the success path exactly
one of result/error is non-null precisely when the handler's value is
non-null. -/
theorem c2_dispatcher_response_shape (n : Int) (e : JsError) (res : JVal) :
    resultCont (some (JVal.num n)) (some e) res =
      [{ id := some (JVal.num n), result := JVal.null, error := JVal.str e.message }] ∧
    RespOut.exactlyOne
      { id := some (JVal.num n), result := JVal.null, error := JVal.str e.message } ∧
    resultCont (some (JVal.num n)) none res =
      [{ id := some (JVal.num n), result := res, error := JVal.null }] ∧
    (RespOut.exactlyOne { id := some (JVal.num n), result := res, error := JVal.null } ↔
      res ≠ JVal.null) := by
  have hne : (some (JVal.num n) : Option JVal) ≠ some JVal.null := by simp
  refine ⟨by simp [resultCont, hne], Or.inr ⟨rfl, by simp⟩, by simp [resultCont, hne], ?_⟩
  constructor
  · rintro (⟨h1, _⟩ | ⟨_, h2⟩)
    · exact h1
    · exact absurd rfl h2
  · intro h
    exact Or.inl ⟨h, rfl⟩

/-- C5: when a pending call's timer fires while the connection is
connected, a `timeout` event carrying the original method and params is
emitted and the remote state (pending table included) is untouched;
when it fires while not connected, the original call arguments are
appended to the deferred queue, the pending entry is removed from the
table, and no `timeout` event is emitted. -/
theorem c5_timeout_expiry_behavior (r : Remote) (q : List CallArgs) (pc : PendingCall) :
    Remote.onTimeout r true q pc = (r, q, [(pc.req.method, pc.req.params)]) ∧
    (Remote.onTimeout r false q pc).2.1 = q ++ [pc.args] ∧
    (Remote.onTimeout r false q pc).1.handlers = alErase r.handlers pc.req.id ∧
    alGet (Remote.onTimeout r false q pc).1.handlers pc.req.id = none ∧
    (Remote.onTimeout r false q pc).2.2 = [] := by
  refine ⟨rfl, rfl, rfl, ?_, rfl⟩
  show alGet (alErase r.handlers pc.req.id) pc.req.id = none
  exact alGet_alErase r.handlers pc.req.id

/-- C6: an inbound Notification (`id` present and null, no
`result`/`error` key) whose method has a registered handler is
dispatched to that handler but produces no wire write, whatever the
handler does (success, error, throw, or never calling the
continuation): the outbound stream is unchanged. -/
theorem c6_notification_no_wire_write (ms : List (String × HandlerBehavior))
    (o : InObj) (hb : HandlerBehavior) (hm : lookupMethod ms o.method = some hb)
    (hid : o.id = some JVal.null) (hr : o.result = none) (he : o.error = none)
    (w : List RespOut) :
    classify o = MsgClass.notif ∧
    Conn.onObject ms o = { sent := [], invoked := true } ∧
    w ++ (Conn.onObject ms o).sent = w := by
  have hc : classify o = MsgClass.notif := by simp [classify, hr, he, hid]
  have hm2 : methodsGet ms o.method o.params = some hb := by
    simp [methodsGet, hm]
  have hd : Conn.onObject ms o = { sent := [], invoked := true } := by
    unfold Conn.onObject
    rw [hc]
    unfold Conn.handleRequest
    rw [hm2]
    cases hb <;> simp [runHandler, resultCont, hid]
  exact ⟨hc, hd, by rw [hd]; exact List.append_nil w⟩

/-- C6 witness: a null-id notification for a registered `echo` handler
leaves the outbound stream unchanged. -/
theorem c6_notification_witness :
    lookupMethod [("echo", HandlerBehavior.callOk (JVal.str "Hello JSON-RPC"))] "echo" =
      some (HandlerBehavior.callOk (JVal.str "Hello JSON-RPC")) ∧
    Conn.onObject [("echo", HandlerBehavior.callOk (JVal.str "Hello JSON-RPC"))]
        { id := some JVal.null, result := none, error := none,
          method := "echo", params := [JVal.str "Hello JSON-RPC"] } =
      { sent := [], invoked := true } :=
  ⟨rfl,
   (c6_notification_no_wire_write
      [("echo", HandlerBehavior.callOk (JVal.str "Hello JSON-RPC"))]
      { id := some JVal.null, result := none, error := none,
        method := "echo", params := [JVal.str "Hello JSON-RPC"] }
      (HandlerBehavior.callOk (JVal.str "Hello JSON-RPC"))
      rfl rfl rfl rfl []).2.1⟩

/-- C7 fails on the code: `this._methods = {}` is a plain object, so an
unregistered method name such as "toString" reads the function
inherited from `Object.prototype`, passes the
`typeof method === 'function'` test, and that built-in is invoked —
it ignores the appended continuation, so no response at all is sent,
instead of the claimed `{id, result: null, error: "Method Not Found"}`
with no handler invoked. -/
theorem c7_inherited_builtin_no_response :
    lookupMethod [] "toString" = none ∧
    Conn.onObject []
        { id := some (JVal.num 1), result := none, error := none,
          method := "toString", params := [JVal.str "Hello JSON-RPC"] } =
      { sent := [], invoked := true } := by
  decide

/-- C7 (amended): for an inbound Request whose method name has no
registered handler AND does not name a function-valued property
inherited from `Object.prototype`, the dispatcher immediately sends
exactly one `{id, result: null, error: "Method Not Found"}` response
and invokes nothing; if the unregistered name is one of the inherited
built-ins that ignore the continuation, the built-in is invoked instead
and no response is sent. -/
theorem c7_method_not_found_response (ms : List (String × HandlerBehavior))
    (o : InObj) (hreq : classify o = MsgClass.request)
    (hm : lookupMethod ms o.method = none) :
    (o.method ∉ protoSilent → o.method ∉ protoDefiners →
      Conn.onObject ms o =
        { sent := [{ id := o.id, result := JVal.null, error := JVal.str "Method Not Found" }]
          invoked := false }) ∧
    (o.method ∈ protoSilent →
      Conn.onObject ms o = { sent := [], invoked := true }) := by
  have hid : o.id ≠ some JVal.null := by
    intro h
    by_cases hc : (o.result.isSome || o.error.isSome) = true <;>
      simp [classify, hc, h] at hreq
  constructor
  · intro h1 h2
    have hm2 : methodsGet ms o.method o.params = none := by
      simp [methodsGet, hm, h1, h2]
    unfold Conn.onObject
    rw [hreq]
    unfold Conn.handleRequest
    rw [hm2]
    simp [resultCont, hid]
  · intro h1
    have hm2 : methodsGet ms o.method o.params = some HandlerBehavior.silent := by
      simp [methodsGet, hm, h1]
    unfold Conn.onObject
    rw [hreq]
    unfold Conn.handleRequest
    rw [hm2]
    simp [runHandler]

/-- C7 witness: the unregistered-method example from the spec — request
`{method: "echo", params: ["Hello JSON-RPC"], id: 1}` against an empty
registry ("echo" names nothing inherited either) yields
`{id: 1, result: null, error: "Method Not Found"}`. -/
theorem c7_method_not_found_witness :
    classify { id := some (JVal.num 1), result := none, error := none,
               method := "echo", params := [JVal.str "Hello JSON-RPC"] } =
      MsgClass.request ∧
    lookupMethod [] "echo" = none ∧
    Conn.onObject []
        { id := some (JVal.num 1), result := none, error := none,
          method := "echo", params := [JVal.str "Hello JSON-RPC"] } =
      { sent := [{ id := some (JVal.num 1), result := JVal.null,
                   error := JVal.str "Method Not Found" }]
        invoked := false } :=
  ⟨by decide, rfl,
   (c7_method_not_found_response []
      { id := some (JVal.num 1), result := none, error := none,
        method := "echo", params := [JVal.str "Hello JSON-RPC"] }
      (by decide) rfl).1 (by decide) (by decide)⟩

/-- C8: an inbound response whose id matches no pending call leaves the
remote state exactly as it was and invokes no callback; and after any
response with id `j` is processed, `j` is no longer in the pending
table, so a second response with the same id is silently dropped — the
callback of a pending call runs at most once. -/
theorem c8_unmatched_response_dropped (r : Remote) (res : RespMsg) (i : Nat)
    (hid : res.id = some i) (h : alGet r.handlers i = none) :
    Remote.onResponse r res = (r, []) ∧
    ∀ (r2 : Remote) (res2 : RespMsg) (j : Nat), res2.id = some j →
      alGet (Remote.onResponse r2 res2).1.handlers j = none := by
  constructor
  · unfold Remote.onResponse
    rw [hid]
    simp only [h, alErase_of_none r.handlers i h]
  · intro r2 res2 j hid2
    rw [Remote.onResponse_fst, hid2]
    exact alGet_alErase r2.handlers j

/-- C8 witness: a response with id 5 against a table holding only id 1
is dropped without touching the table. -/
theorem c8_unmatched_response_witness :
    alGet [(1, { req := { id := 1, method := JVal.str "echo", params := [] }
                 args := { method := JVal.str "echo", params := [], cb := true } })] 5 =
      none ∧
    Remote.onResponse
        { requestID := 2
          handlers := [(1, { req := { id := 1, method := JVal.str "echo", params := [] }
                             args := { method := JVal.str "echo", params := [], cb := true } })] }
        { id := some 5, result := JVal.null, error := JVal.null } =
      ({ requestID := 2
         handlers := [(1, { req := { id := 1, method := JVal.str "echo", params := [] }
                            args := { method := JVal.str "echo", params := [], cb := true } })] },
       []) :=
  ⟨rfl,
   (c8_unmatched_response_dropped
      { requestID := 2
        handlers := [(1, { req := { id := 1, method := JVal.str "echo", params := [] }
                           args := { method := JVal.str "echo", params := [], cb := true } })] }
      { id := some 5, result := JVal.null, error := JVal.null } 5 rfl rfl).1⟩

/-- C10: a decoded object with no `result`/`error` key and `id` equal
to the integer 0 is classified as a Request; its registered handler is
invoked and the continuation sends a response carrying id 0 — id 0 is
not conflated with null/absent. -/
theorem c10_id_zero_is_request (ms : List (String × HandlerBehavior)) (m : String)
    (ps : List JVal) (res : JVal)
    (hm : lookupMethod ms m = some (HandlerBehavior.callOk res)) :
    classify { id := some (JVal.num 0), result := none, error := none,
               method := m, params := ps } = MsgClass.request ∧
    Conn.onObject ms
        { id := some (JVal.num 0), result := none, error := none,
          method := m, params := ps } =
      { sent := [{ id := some (JVal.num 0), result := res, error := JVal.null }]
        invoked := true } := by
  have hc : classify { id := some (JVal.num 0), result := none, error := none, method := m, params := ps } = MsgClass.request := by
    simp [classify]
  have hm2 : methodsGet ms m ps = some (HandlerBehavior.callOk res) := by
    simp [methodsGet, hm]
  refine ⟨hc, ?_⟩
  unfold Conn.onObject
  rw [hc]
  unfold Conn.handleRequest
  dsimp only
  rw [hm2]
  simp [runHandler, resultCont]

/-- C10 witness: the id-0 test case — request
`{method: "echo", params: ["Hello JSON-RPC"], id: 0}` with `echo`
registered yields `{id: 0, result: "Hello JSON-RPC", error: null}`. -/
theorem c10_id_zero_witness :
    lookupMethod [("echo", HandlerBehavior.callOk (JVal.str "Hello JSON-RPC"))] "echo" =
      some (HandlerBehavior.callOk (JVal.str "Hello JSON-RPC")) ∧
    Conn.onObject [("echo", HandlerBehavior.callOk (JVal.str "Hello JSON-RPC"))]
        { id := some (JVal.num 0), result := none, error := none,
          method := "echo", params := [JVal.str "Hello JSON-RPC"] } =
      { sent := [{ id := some (JVal.num 0), result := JVal.str "Hello JSON-RPC",
                   error := JVal.null }]
        invoked := true } :=
  ⟨rfl,
   (c10_id_zero_is_request
      [("echo", HandlerBehavior.callOk (JVal.str "Hello JSON-RPC"))]
      "echo" [JVal.str "Hello JSON-RPC"] (JVal.str "Hello JSON-RPC") rfl).2⟩

/-- C3: within one connected session (one `Remote`), the ids of the
requests actually sent form exactly the gap-free strictly increasing
sequence 1, 2, ..., n (one per call, whatever responses and timer
firings are interleaved); the next id to be allocated is never present
in the pending table, so an id is never reused while a call with that
id is pending; and every transition into the connected state installs a
fresh `Remote` whose allocator restarts at 1 (here for a connection
whose deferred queue is empty at connect time). -/
theorem c3_request_id_allocation (es : List REvent) (c : Conn) (hq : c.queue = []) :
    (Remote.runTrace Remote.init es).2.map Request.id = List.range' 1 (countCalls es) ∧
    alGet (Remote.runTrace Remote.init es).1.handlers
      (Remote.runTrace Remote.init es).1.requestID = none ∧
    (Conn.onConnect c).1.remote = some Remote.init := by
  refine ⟨?_, ?_, ?_⟩
  · simpa using Remote.runTrace_ids es Remote.init
  · refine Remote.alGet_requestID_of_inv _ (Remote.inv_runTrace es Remote.init ?_)
    intro p hp
    simp [Remote.init] at hp
  · obtain ⟨cc, cq, cr, cw⟩ := c
    change cq = [] at hq
    subst hq
    rfl

/-- C3 witness: a two-call session gets ids [1, 2], the next id is not
pending, and connecting a fresh connection installs a fresh `Remote`. -/
theorem c3_request_id_allocation_witness :
    Conn.init.queue = [] ∧
    (Remote.runTrace Remote.init
        [REvent.call { method := JVal.str "echo", params := [], cb := true },
         REvent.call { method := JVal.str "add", params := [JVal.num 3], cb := true }]).2.map
        Request.id =
      List.range' 1 (countCalls
        [REvent.call { method := JVal.str "echo", params := [], cb := true },
         REvent.call { method := JVal.str "add", params := [JVal.num 3], cb := true }]) ∧
    alGet (Remote.runTrace Remote.init
        [REvent.call { method := JVal.str "echo", params := [], cb := true },
         REvent.call { method := JVal.str "add", params := [JVal.num 3], cb := true }]).1.handlers
      (Remote.runTrace Remote.init
        [REvent.call { method := JVal.str "echo", params := [], cb := true },
         REvent.call { method := JVal.str "add", params := [JVal.num 3], cb := true }]).1.requestID =
      none ∧
    (Conn.onConnect Conn.init).1.remote = some Remote.init :=
  ⟨rfl,
   (c3_request_id_allocation
      [REvent.call { method := JVal.str "echo", params := [], cb := true },
       REvent.call { method := JVal.str "add", params := [JVal.num 3], cb := true }]
      Conn.init rfl).1,
   (c3_request_id_allocation
      [REvent.call { method := JVal.str "echo", params := [], cb := true },
       REvent.call { method := JVal.str "add", params := [JVal.num 3], cb := true }]
      Conn.init rfl).2.1,
   (c3_request_id_allocation
      [REvent.call { method := JVal.str "echo", params := [], cb := true },
       REvent.call { method := JVal.str "add", params := [JVal.num 3], cb := true }]
      Conn.init rfl).2.2⟩

/-- C4 fails on the code as universally stated: if some deferred call
was queued with a non-string method, the flush on connect throws at
that job, the later queued calls are never issued, and `_queue = []` is
never reached — here a queue of three jobs flushes only the first,
faults, and keeps all three jobs queued. -/
theorem c4_flush_aborts_on_bad_method :
    (Conn.onConnect
        { connected := false
          queue := [{ method := JVal.str "a", params := [], cb := false },
                    { method := JVal.num 42, params := [], cb := false },
                    { method := JVal.str "b", params := [], cb := false }]
          remote := none, wire := [] }).2 = some CallFault.typeErr ∧
    (Conn.onConnect
        { connected := false
          queue := [{ method := JVal.str "a", params := [], cb := false },
                    { method := JVal.num 42, params := [], cb := false },
                    { method := JVal.str "b", params := [], cb := false }]
          remote := none, wire := [] }).1.queue =
      [{ method := JVal.str "a", params := [], cb := false },
       { method := JVal.num 42, params := [], cb := false },
       { method := JVal.str "b", params := [], cb := false }] ∧
    (Conn.onConnect
        { connected := false
          queue := [{ method := JVal.str "a", params := [], cb := false },
                    { method := JVal.num 42, params := [], cb := false },
                    { method := JVal.str "b", params := [], cb := false }]
          remote := none, wire := [] }).1.wire =
      [{ id := 1, method := JVal.str "a", params := [] }] := by
  refine ⟨rfl, rfl, rfl⟩

/-- C4 (amended): calls made while not connected are appended to the
deferred queue; on the transition into the connected state, provided
every queued method is a string, every queued call is issued exactly
once, in enqueue order, with ids assigned at flush time as 1..n, and
the queue is then empty.  (If a queued method is not a string, the
flush aborts at that job: earlier jobs are issued, it and later jobs
are not, and the queue is not cleared.) -/
theorem c4_flush_in_order_when_methods_strings (c : Conn)
    (h : ∀ a ∈ c.queue, a.method.isStr = true) :
    (Conn.onConnect c).2 = none ∧
    (Conn.onConnect c).1.queue = [] ∧
    (Conn.onConnect c).1.wire = c.wire ++ reqsFrom 1 c.queue ∧
    (Conn.onConnect c).1.connected = true := by
  obtain ⟨cc, cq, cr, cw⟩ := c
  have h2 : ∀ a ∈ cq, a.method.isStr = true := h
  have hf := Conn.flushJobs_ok cq (Conn.mk true cq (some Remote.init) cw) Remote.init rfl h2
  simp only [Conn.onConnect]
  rw [show (Conn.mk cc cq cr cw).queue = cq from rfl] at *
  rw [hf]
  exact ⟨rfl, rfl, rfl, rfl⟩

/-- C4 witness: two string-method deferred calls flush in order with
ids 1 and 2 and leave an empty queue. -/
theorem c4_flush_witness :
    (∀ a ∈ ({ connected := false
              queue := [{ method := JVal.str "a", params := [], cb := false },
                        { method := JVal.str "b", params := [JVal.num 3], cb := true }]
              remote := none, wire := [] } : Conn).queue, a.method.isStr = true) ∧
    (Conn.onConnect
        { connected := false
          queue := [{ method := JVal.str "a", params := [], cb := false },
                    { method := JVal.str "b", params := [JVal.num 3], cb := true }]
          remote := none, wire := [] }).2 = none ∧
    (Conn.onConnect
        { connected := false
          queue := [{ method := JVal.str "a", params := [], cb := false },
                    { method := JVal.str "b", params := [JVal.num 3], cb := true }]
          remote := none, wire := [] }).1.queue = [] ∧
    (Conn.onConnect
        { connected := false
          queue := [{ method := JVal.str "a", params := [], cb := false },
                    { method := JVal.str "b", params := [JVal.num 3], cb := true }]
          remote := none, wire := [] }).1.wire =
      [] ++ reqsFrom 1
        [{ method := JVal.str "a", params := [], cb := false },
         { method := JVal.str "b", params := [JVal.num 3], cb := true }] :=
  ⟨by decide,
   (c4_flush_in_order_when_methods_strings
      { connected := false
        queue := [{ method := JVal.str "a", params := [], cb := false },
                  { method := JVal.str "b", params := [JVal.num 3], cb := true }]
        remote := none, wire := [] } (by decide)).1,
   (c4_flush_in_order_when_methods_strings
      { connected := false
        queue := [{ method := JVal.str "a", params := [], cb := false },
                  { method := JVal.str "b", params := [JVal.num 3], cb := true }]
        remote := none, wire := [] } (by decide)).2.1,
   (c4_flush_in_order_when_methods_strings
      { connected := false
        queue := [{ method := JVal.str "a", params := [], cb := false },
                  { method := JVal.str "b", params := [JVal.num 3], cb := true }]
        remote := none, wire := [] } (by decide)).2.2.1⟩

/-- C9 fails on the code as universally stated: a `call` with a
non-string method issued while NOT connected raises nothing to the
caller — the argument tuple is queued unvalidated (the `TypeError`
only fires later, at flush time, inside the connect event handler). -/
theorem c9_queued_bad_method_no_sync_error :
    Conn.call Conn.init { method := JVal.num 42, params := [], cb := true } =
      Except.ok
        { connected := false
          queue := [{ method := JVal.num 42, params := [], cb := true }]
          remote := none, wire := [] } := rfl

/-- C9 (amended): a `call` whose method is not a string raises a
`TypeError` synchronously to the caller, with nothing sent, only when
the connection is connected; while not connected the call is queued
without validation, and the `TypeError` is instead raised during the
queue flush on the next connect transition (the queue keeping its
contents). -/
theorem c9_bad_method_behavior (c : Conn) (a : CallArgs)
    (hm : a.method.isStr = false) :
    (c.connected = true → Conn.call c a = Except.error CallFault.typeErr) ∧
    (c.connected = false →
      Conn.call c a = Except.ok { c with queue := c.queue ++ [a] }) ∧
    (∀ pre post : List CallArgs, (∀ b ∈ pre, b.method.isStr = true) →
      ∀ c2 : Conn, c2.queue = pre ++ a :: post →
        (Conn.onConnect c2).2 = some CallFault.typeErr ∧
        (Conn.onConnect c2).1.queue = pre ++ a :: post) := by
  refine ⟨?_, ?_, ?_⟩
  · intro hc
    simp [Conn.call, hc, Conn.createCall, hm]
  · intro hc
    simp [Conn.call, hc]
  · intro pre post hpre c2 hq2
    obtain ⟨cc, cq, cr, cw⟩ := c2
    change cq = pre ++ a :: post at hq2
    subst hq2
    have hf := Conn.flushJobs_ok pre
      (Conn.mk true (pre ++ a :: post) (some Remote.init) cw) Remote.init rfl hpre
    have happ := Conn.flushJobs_append pre (a :: post) _ _ hf
    have hbad : ∀ X : Conn, Conn.flushJobs X (a :: post) = (X, some CallFault.typeErr) := by
      intro X
      simp [Conn.flushJobs, Conn.createCall, hm]
    simp only [Conn.onConnect]
    rw [show (Conn.mk cc (pre ++ a :: post) cr cw).queue = pre ++ a :: post from rfl] at *
    rw [happ, hbad]
    exact ⟨rfl, rfl⟩

/-- C9 witness: with a connected connection, a numeric method faults
synchronously; with a disconnected one it is queued; and a queue
holding it faults at flush time, keeping its contents. -/
theorem c9_bad_method_witness :
    ({ method := JVal.num 7, params := [], cb := true } : CallArgs).method.isStr = false ∧
    Conn.call { connected := true, queue := [], remote := some Remote.init, wire := [] }
        { method := JVal.num 7, params := [], cb := true } =
      Except.error CallFault.typeErr ∧
    (Conn.onConnect
        { connected := false
          queue := [{ method := JVal.num 7, params := [], cb := true }]
          remote := none, wire := [] }).2 = some CallFault.typeErr :=
  ⟨rfl,
   (c9_bad_method_behavior
      { connected := true, queue := [], remote := some Remote.init, wire := [] }
      { method := JVal.num 7, params := [], cb := true } rfl).1 rfl,
   ((c9_bad_method_behavior
      { connected := false
        queue := [{ method := JVal.num 7, params := [], cb := true }]
        remote := none, wire := [] }
      { method := JVal.num 7, params := [], cb := true } rfl).2.2 [] []
      (by intro b hb; cases hb)
      { connected := false
        queue := [{ method := JVal.num 7, params := [], cb := true }]
        remote := none, wire := [] } rfl).1⟩

end JsonRpcTcp
